import Mathlib

/-!
Verification of the MAX17048 fuel-gauge driver (`src/max17048.c`,
`src/max17048.h`) against its natural-language specification.

The driver is embedded shallowly: the i2c transport is modelled as an
explicit bus state (register contents, a success oracle per transport
call, and a call counter), 16-bit machine integers are `Nat` with
explicit `% 65536` where the C code truncates, and every driver function
is a pure Lean function threading the bus state.
-/

/-! ### Register addresses and constants (from `max17048.c`) -/

def MAX_ADDR : Nat := 0x36

def VCELL : Nat := 0x02

def SOC : Nat := 0x04

def VERSION : Nat := 0x08

def CONFIG : Nat := 0x0C

def VALRT : Nat := 0x14

def VRESET_ID : Nat := 0x18

def STATUS : Nat := 0x1A

def VERSION_MSK : Nat := 0xFFF0

def PART_NUMBER : Nat := 0x0010

def BAT_LOW_POS : Nat := 0

def BAT_LOW_MSK : Nat := 0x001F <<< BAT_LOW_POS

def BAT_LOW_MIN : Nat := 1

def BAT_LOW_MAX : Nat := 32

def ALRT_BIT_POS : Nat := 5

def ALRT_BIT_MSK : Nat := 0x0001 <<< ALRT_BIT_POS

def ALSC_BIT_POS : Nat := 6

def ALSC_BIT_MSK : Nat := 0x0001 <<< ALSC_BIT_POS

def VALRT_MAX_POS : Nat := 0

def VALRT_MAX_MSK : Nat := 0x00FF <<< VALRT_MAX_POS

def VALRT_MIN_POS : Nat := 8

def VALRT_MIN_MSK : Nat := 0x00FF <<< VALRT_MIN_POS

def VALRT_RESOLUTION : Nat := 20

def ALRT_STATUS_POS : Nat := 8

def ALRT_STATUS_MSK : Nat := 0x003F <<< ALRT_STATUS_POS

/-- Alert flag constants from the header enum (`max17048.h`). -/
def MAX_ALERT_RESET : Nat := 0x01

def MAX_ALERT_OVERVOLTED : Nat := 0x02

def MAX_ALERT_UNDERVOLTED : Nat := 0x04

def MAX_ALERT_VOLTAGE_RESET : Nat := 0x80

def MAX_ALERT_SOC_LOW : Nat := 0x10

def MAX_ALERT_SOC_CHANGE : Nat := 0x20

/-- Union of the six named alert flag values of the header enum. -/
def namedAlertFlags : Nat :=
  MAX_ALERT_RESET ||| MAX_ALERT_OVERVOLTED ||| MAX_ALERT_UNDERVOLTED |||
  MAX_ALERT_VOLTAGE_RESET ||| MAX_ALERT_SOC_LOW ||| MAX_ALERT_SOC_CHANGE

/-- `VCELL_TO_MV(vcell)` macro: `(vcell * 5U) >> 6U`. -/
def VCELL_TO_MV (vcell : Nat) : Nat := (vcell * 5) >>> 6

/-- `SWAP16(x)` macro: `(uint16_t)(((x) << 8U) | ((x) >> 8U))`, the
truncation to `uint16_t` modelled by `% 65536`. -/
def SWAP16 (x : Nat) : Nat := ((x <<< 8) ||| (x >>> 8)) % 65536

/-- Complement of a 16-bit mask: `buf & ~mask` in C, with `buf` a
`uint16_t` and `mask < 2^16`, keeps exactly the bits of `65535 ^^^ mask`. -/
def NOT16 (m : Nat) : Nat := 65535 ^^^ m

/-- The register update computed by `modify_reg` (line 79 of
`max17048.c`): `buf = (buf & ~mask) | (data & mask)`. -/
def masked_update (buf data mask : Nat) : Nat :=
  (buf &&& NOT16 mask) ||| (data &&& mask)

/-! ### The i2c transport model

The bus holds the wire-level (byte-swapped) 16-bit contents of each
register, an oracle telling whether the n-th transport call succeeds,
and a counter of transport calls issued so far.  Each transport call
increments the counter, so an operation that issues no transport call
returns the input bus unchanged. -/

structure Bus where
  regs : Nat → Nat
  ok : Nat → Bool
  calls : Nat

/-- Model of `i2c_master_read_u16`: returns the 16-bit wire value of the
register on success, `none` on transport failure. -/
def i2c_master_read_u16 (addr reg : Nat) (bus : Bus) : Option Nat × Bus :=
  if bus.ok bus.calls then
    (some (bus.regs reg % 65536), { bus with calls := bus.calls + 1 })
  else
    (none, { bus with calls := bus.calls + 1 })

/-- Model of `i2c_master_write_u16`: stores the 16-bit value into the
register on success. -/
def i2c_master_write_u16 (addr reg data : Nat) (bus : Bus) : Bool × Bus :=
  if bus.ok bus.calls then
    (true, { regs := fun r => if r = reg then data % 65536 else bus.regs r,
             ok := bus.ok, calls := bus.calls + 1 })
  else
    (false, { bus with calls := bus.calls + 1 })

/-- `read_reg` (lines 60-67): transport read, then byte swap. -/
def read_reg (reg : Nat) (bus : Bus) : Option Nat × Bus :=
  match i2c_master_read_u16 MAX_ADDR reg bus with
  | (none, bus1) => (none, bus1)
  | (some v, bus1) => (some (SWAP16 v), bus1)

/-- `write_reg` (lines 69-71): byte swap, then transport write; the
`uint16_t` parameter conversion is modelled by `% 65536`. -/
def write_reg (reg data : Nat) (bus : Bus) : Bool × Bus :=
  i2c_master_write_u16 MAX_ADDR reg (SWAP16 (data % 65536)) bus

/-- `modify_reg` (lines 73-81): read-modify-write with a mask. -/
def modify_reg (reg data mask : Nat) (bus : Bus) : Bool × Bus :=
  match read_reg reg bus with
  | (none, bus1) => (false, bus1)
  | (some buf, bus1) => write_reg reg (masked_update buf data mask) bus1

/-! ### Driver operations

Output pointers are modelled by a `Bool` flag saying whether the caller
passed a null pointer, plus an `Option Nat` holding the value written
through the pointer (`none` when nothing was stored). -/

/-- `max17048_is_present` (lines 83-90). -/
def max17048_is_present (bus : Bus) : Bool × Bus :=
  match read_reg VERSION bus with
  | (none, bus1) => (false, bus1)
  | (some data, bus1) => (decide ((data &&& VERSION_MSK) = PART_NUMBER), bus1)

/-- `max17048_get_vcell` (lines 92-102); the `max17048_voltage_t` cast
is modelled by `% 65536`. -/
def max17048_get_vcell (mvNull : Bool) (bus : Bus) : Bool × Option Nat × Bus :=
  if mvNull then (false, none, bus)
  else
    match read_reg VCELL bus with
    | (none, bus1) => (false, none, bus1)
    | (some data, bus1) => (true, some (VCELL_TO_MV data % 65536), bus1)

/-- `max17048_get_soc` (lines 104-114); the `max17048_soc_t` (uint8)
cast is modelled by `% 256`. -/
def max17048_get_soc (percentNull : Bool) (bus : Bus) : Bool × Option Nat × Bus :=
  if percentNull then (false, none, bus)
  else
    match read_reg SOC bus with
    | (none, bus1) => (false, none, bus1)
    | (some data, bus1) => (true, some ((data >>> 8) % 256), bus1)

/-- Encoding computed by `max17048_set_bat_low_soc` (line 120):
`(uint16_t)((BAT_LOW_MAX - (percent % BAT_LOW_MAX)) & BAT_LOW_MSK)`. -/
def bat_low_encode (percent : Nat) : Nat :=
  ((BAT_LOW_MAX - percent % BAT_LOW_MAX) &&& BAT_LOW_MSK) % 65536

/-- `max17048_set_bat_low_soc` (lines 116-123). -/
def max17048_set_bat_low_soc (percent : Nat) (bus : Bus) : Bool × Bus :=
  if percent < BAT_LOW_MIN ∨ percent > BAT_LOW_MAX then (false, bus)
  else modify_reg CONFIG (bat_low_encode percent) BAT_LOW_MSK bus

/-- `max17048_set_undervolted_voltage` (lines 125-129). -/
def max17048_set_undervolted_voltage (mv : Nat) (bus : Bus) : Bool × Bus :=
  modify_reg VALRT
    ((((mv / VALRT_RESOLUTION) <<< VALRT_MIN_POS) &&& VALRT_MIN_MSK) % 65536)
    VALRT_MIN_MSK bus

/-- `max17048_set_overvolted_voltage` (lines 131-135). -/
def max17048_set_overvolted_voltage (mv : Nat) (bus : Bus) : Bool × Bus :=
  modify_reg VALRT
    ((((mv / VALRT_RESOLUTION) <<< VALRT_MAX_POS) &&& VALRT_MAX_MSK) % 65536)
    VALRT_MAX_MSK bus

/-- `max17048_clear_alerts` (lines 155-162): clear the STATUS alert
field, then (only if that succeeded) clear the CONFIG ALRT bit. -/
def max17048_clear_alerts (bus : Bus) : Bool × Bus :=
  match modify_reg STATUS 0 ALRT_STATUS_MSK bus with
  | (true, bus1) => modify_reg CONFIG 0 ALRT_BIT_MSK bus1
  | (false, bus1) => (false, bus1)

/-- `max17048_get_alerts` (lines 164-175), modelled faithfully to the
code: `ok` is computed but the function stores
`(data & ALRT_STATUS_MSK) >> ALRT_STATUS_POS` through the pointer and
returns `true` regardless of `ok`.  `junk` models the indeterminate
value of the local `data` when the STATUS read fails. -/
def max17048_get_alerts (alertsNull : Bool) (junk : Nat) (bus : Bus) :
    Bool × Option Nat × Bus :=
  if alertsNull then (false, none, bus)
  else
    match read_reg STATUS bus with
    | (none, bus1) =>
        (true, some ((((junk % 65536) &&& ALRT_STATUS_MSK) >>> ALRT_STATUS_POS) % 256), bus1)
    | (some data, bus1) =>
        let r := max17048_clear_alerts bus1
        (true, some (((data &&& ALRT_STATUS_MSK) >>> ALRT_STATUS_POS) % 256), r.2)

/-! ### Observation helpers and concrete buses -/

/-- Logical (byte-swap corrected) value of a register, i.e. the value
`read_reg` yields on success. -/
def regVal (bus : Bus) (reg : Nat) : Nat := SWAP16 (bus.regs reg % 65536)

/-- A bus on which every transport call succeeds and every register
holds wire value 0xFFFF. -/
def busAllOk : Bus := ⟨fun _ => 0xFFFF, fun _ => true, 0⟩

/-- A bus on which every transport call fails. -/
def busAllFail : Bus := ⟨fun _ => 0, fun _ => false, 0⟩

/-- A bus on which only the first transport call succeeds. -/
def busFirstOnly : Bus := ⟨fun _ => 0, fun n => decide (n = 0), 0⟩

/-- A bus whose STATUS register holds wire value 0x0008, i.e. logical
value 0x0800 (alert-status bit 11, the voltage-reset status bit). -/
def busVR : Bus := ⟨fun _ => 0x0008, fun _ => true, 0⟩

/-- A bus whose SOC register holds wire value 0x00FF, i.e. logical
value 0xFF00 (raw SOC upper byte 255). -/
def busSocFF : Bus := ⟨fun _ => 0x00FF, fun _ => true, 0⟩

lemma SWAP16_lt (x : Nat) : SWAP16 x < 65536 := by
  unfold SWAP16
  exact Nat.mod_lt _ (by norm_num)

lemma SWAP16_eq (x : Nat) (h : x < 65536) :
    SWAP16 x = (x % 256) * 256 + x / 256 := by
  unfold SWAP16
  rw [Nat.shiftLeft_eq, Nat.shiftRight_eq_div_pow]
  have hb : x / 2 ^ 8 < 2 ^ 8 := by norm_num; omega
  rw [show x * 2 ^ 8 = 2 ^ 8 * x by ring, ← Nat.mul_add_lt_is_or hb x]
  norm_num
  omega

lemma SWAP16_SWAP16 (x : Nat) (h : x < 65536) : SWAP16 (SWAP16 x) = x := by
  have h2 : (x % 256) * 256 + x / 256 < 65536 := by omega
  rw [SWAP16_eq x h, SWAP16_eq _ h2]
  omega

lemma regVal_lt (bus : Bus) (reg : Nat) : regVal bus reg < 65536 := SWAP16_lt _

lemma masked_update_lt (buf data mask : Nat) (hb : buf < 65536) (hm : mask < 65536) :
    masked_update buf data mask < 65536 := by
  have h16 : (65536 : Nat) = 2 ^ 16 := by norm_num
  rw [h16] at hb hm ⊢
  exact Nat.or_lt_two_pow (lt_of_le_of_lt Nat.and_le_left hb)
    (lt_of_le_of_lt Nat.and_le_right hm)

lemma modify_reg_ok (reg data mask : Nat) (bus : Bus)
    (h0 : bus.ok bus.calls = true) (h1 : bus.ok (bus.calls + 1) = true) :
    modify_reg reg data mask bus =
      (true,
       { regs := fun r => if r = reg then
           SWAP16 (masked_update (regVal bus reg) data mask % 65536) % 65536
           else bus.regs r,
         ok := bus.ok,
         calls := bus.calls + 1 + 1 }) := by
  unfold modify_reg read_reg write_reg i2c_master_read_u16 i2c_master_write_u16 regVal
  simp [h0, h1]

lemma modify_reg_regs_other (reg data mask : Nat) (bus : Bus) (r : Nat) (hr : r ≠ reg) :
    ((modify_reg reg data mask bus).2).regs r = bus.regs r := by
  unfold modify_reg read_reg write_reg i2c_master_read_u16 i2c_master_write_u16
  rcases h0 : bus.ok bus.calls with _ | _
  · simp [h0]
  · rcases h1 : bus.ok (bus.calls + 1) with _ | _ <;> simp [h0, h1, hr]

lemma regVal_modify_other (reg data mask : Nat) (bus : Bus) (r : Nat) (hr : r ≠ reg) :
    regVal ((modify_reg reg data mask bus).2) r = regVal bus r := by
  unfold regVal
  rw [modify_reg_regs_other reg data mask bus r hr]

lemma regVal_modify_ok (reg data mask : Nat) (bus : Bus)
    (h0 : bus.ok bus.calls = true) (h1 : bus.ok (bus.calls + 1) = true) :
    regVal ((modify_reg reg data mask bus).2) reg =
      masked_update (regVal bus reg) data mask % 65536 := by
  rw [modify_reg_ok reg data mask bus h0 h1]
  show SWAP16 ((if reg = reg then
      SWAP16 (masked_update (SWAP16 (bus.regs reg % 65536)) data mask % 65536) % 65536
      else bus.regs reg) % 65536) = _
  rw [if_pos rfl, Nat.mod_eq_of_lt (SWAP16_lt _), Nat.mod_eq_of_lt (SWAP16_lt _)]
  exact SWAP16_SWAP16 _ (Nat.mod_lt _ (by norm_num))

lemma modify_reg_fail_read (reg data mask : Nat) (bus : Bus)
    (h0 : bus.ok bus.calls = false) :
    modify_reg reg data mask bus = (false, { bus with calls := bus.calls + 1 }) := by
  unfold modify_reg read_reg i2c_master_read_u16
  simp [h0]

lemma testBit_255 (j : Nat) : Nat.testBit 255 j = decide (j < 8) := by
  have h : (255 : Nat) = 2 ^ 8 - 1 := by norm_num
  rw [h, Nat.testBit_two_pow_sub_one]

lemma testBit_ff00 (j : Nat) :
    Nat.testBit 0xFF00 j = (decide (8 ≤ j) && decide (j < 16)) := by
  have h : (0xFF00 : Nat) = 255 <<< 8 := by decide
  rw [h, Nat.testBit_shiftLeft, testBit_255]
  rcases Nat.lt_or_ge j 8 with hj | hj
  · simp [Nat.not_le.2 hj, Nat.not_le_of_lt hj]
  · simp only [ge_iff_le, hj, decide_eq_true_eq, decide_eq_decide]
    simp [hj]
    omega

lemma masked_update_zero (x m : Nat) : masked_update x 0 m = x &&& NOT16 m := by
  simp [masked_update]

lemma and_not16_and_self (x m : Nat) (h : NOT16 m &&& m = 0) :
    (x &&& NOT16 m) &&& m = 0 := by
  rw [Nat.and_assoc, h, Nat.and_zero]

/-- C6: the masked update of `modify_reg` computes
`(old & ~mask) | (new & mask)`: every bit outside the mask is unchanged
from the old register value, and applying the same masked value twice
gives the same result as applying it once. -/
theorem masked_update_spec (old data mask i : Nat)
    (hold : old < 65536) (hmask : mask < 65536)
    (hbit : mask.testBit i = false) :
    (masked_update old data mask).testBit i = old.testBit i
    ∧ masked_update (masked_update old data mask) data mask =
        masked_update old data mask := by
  constructor
  · simp only [masked_update, NOT16, Nat.testBit_or, Nat.testBit_and,
      Nat.testBit_xor, hbit, Bool.and_false, Bool.or_false, Bool.xor_false]
    rw [show (65535 : Nat) = 2 ^ 16 - 1 by norm_num, Nat.testBit_two_pow_sub_one]
    rcases Nat.lt_or_ge i 16 with hi | hi
    · simp [hi]
    · have : old.testBit i = false :=
        Nat.testBit_lt_two_pow (lt_of_lt_of_le hold (Nat.pow_le_pow_right (show 0 < 2 by norm_num) hi))
      simp [this, Nat.not_lt.2 hi]
  · apply Nat.eq_of_testBit_eq
    intro j
    simp only [masked_update, Nat.testBit_or, Nat.testBit_and]
    generalize Nat.testBit old j = a
    generalize Nat.testBit data j = d
    generalize Nat.testBit (NOT16 mask) j = n
    generalize Nat.testBit mask j = m
    cases a <;> cases d <;> cases n <;> cases m <;> rfl

theorem masked_update_spec_witness :
    (0x1234 : Nat) < 65536 ∧ (0x0F0F : Nat) < 65536
    ∧ Nat.testBit 0x0F0F 4 = false
    ∧ ((masked_update 0x1234 0xABCD 0x0F0F).testBit 4 = Nat.testBit 0x1234 4
       ∧ masked_update (masked_update 0x1234 0xABCD 0x0F0F) 0xABCD 0x0F0F =
           masked_update 0x1234 0xABCD 0x0F0F) :=
  ⟨by decide, by decide, by decide,
   masked_update_spec 0x1234 0xABCD 0x0F0F 4 (by decide) (by decide) (by decide)⟩

/-- C8: the VCELL-to-millivolt decoding `(raw * 5) >> 6` is monotone in
the raw 16-bit ADC value. -/
theorem VCELL_TO_MV_mono (r1 r2 : Nat) (h1 : r1 < 65536) (h2 : r2 < 65536)
    (hle : r1 ≤ r2) : VCELL_TO_MV r1 ≤ VCELL_TO_MV r2 := by
  unfold VCELL_TO_MV
  rw [Nat.shiftRight_eq_div_pow, Nat.shiftRight_eq_div_pow]
  exact Nat.div_le_div_right (by omega)

theorem VCELL_TO_MV_mono_witness :
    (100 : Nat) < 65536 ∧ (200 : Nat) < 65536 ∧ (100 : Nat) ≤ 200
    ∧ VCELL_TO_MV 100 ≤ VCELL_TO_MV 200 :=
  ⟨by decide, by decide, by decide,
   VCELL_TO_MV_mono 100 200 (by decide) (by decide) (by decide)⟩

/-- C5: presence detection returns true iff the transport read succeeds
and the version register's upper 12 bits equal the part-number
signature, and returns false (not a distinct error) on transport
failure. -/
theorem max17048_is_present_spec (bus : Bus) :
    (max17048_is_present bus).1 =
      (bus.ok bus.calls &&
        decide (regVal bus VERSION &&& VERSION_MSK = PART_NUMBER)) := by
  unfold max17048_is_present read_reg i2c_master_read_u16 regVal
  rcases h : bus.ok bus.calls with _ | _ <;> simp [h]

/-- C4: for p in [1,31] the encoded CONFIG field is `32 - p`; for p = 32
it is 0; for p in [1,32] the operation performs the masked CONFIG
update with that encoding; and for p outside [1,32] it fails returning
the bus unchanged, i.e. without issuing any transport call. -/
theorem max17048_set_bat_low_soc_spec (p : Nat) (bus : Bus) :
    (1 ≤ p → p ≤ 31 → bat_low_encode p = 32 - p)
    ∧ (p = 32 → bat_low_encode p = 0)
    ∧ (1 ≤ p → p ≤ 32 →
        max17048_set_bat_low_soc p bus =
          modify_reg CONFIG (bat_low_encode p) BAT_LOW_MSK bus)
    ∧ (p < BAT_LOW_MIN ∨ p > BAT_LOW_MAX →
        max17048_set_bat_low_soc p bus = (false, bus)) := by
  refine ⟨?_, ?_, ?_, ?_⟩
  · intro h1 h2
    interval_cases p <;> decide
  · intro h
    subst h
    decide
  · intro h1 h2
    unfold max17048_set_bat_low_soc
    rw [if_neg]
    simp only [BAT_LOW_MIN, BAT_LOW_MAX]
    omega
  · intro h
    unfold max17048_set_bat_low_soc
    rw [if_pos h]

theorem max17048_set_bat_low_soc_spec_witness :
    ((1 : Nat) ≤ 5 ∧ (5 : Nat) ≤ 31 ∧ bat_low_encode 5 = 27)
    ∧ bat_low_encode 32 = 0
    ∧ (BAT_LOW_MAX < 40 ∧ max17048_set_bat_low_soc 40 busAllOk = (false, busAllOk)) :=
  ⟨⟨by decide, by decide,
    (max17048_set_bat_low_soc_spec 5 busAllOk).1 (by decide) (by decide)⟩,
   (max17048_set_bat_low_soc_spec 32 busAllOk).2.1 rfl,
   ⟨by decide,
    (max17048_set_bat_low_soc_spec 40 busAllOk).2.2.2 (Or.inr (by decide))⟩⟩

/-- C3 (amended): for every raw SOC register value the getter returns
the upper byte of the logical register value; that byte always lies in
0..255, but is not clamped to 100. -/
theorem max17048_get_soc_upper_byte (bus : Bus) (v : Nat)
    (h : (max17048_get_soc false bus).2.1 = some v) :
    v = regVal bus SOC >>> 8 ∧ v ≤ 255 := by
  unfold max17048_get_soc read_reg i2c_master_read_u16 at h
  rcases h0 : bus.ok bus.calls with _ | _
  · rw [h0] at h
    simp at h
  · rw [h0] at h
    simp only [if_true] at h
    have hv : v = (SWAP16 (bus.regs SOC % 65536) >>> 8) % 256 := by
      simpa using h.symm
    have hlt : SWAP16 (bus.regs SOC % 65536) < 65536 := SWAP16_lt _
    rw [Nat.shiftRight_eq_div_pow] at hv
    unfold regVal
    rw [Nat.shiftRight_eq_div_pow]
    norm_num at hv ⊢
    omega

theorem max17048_get_soc_upper_byte_witness :
    (max17048_get_soc false busSocFF).2.1 = some 255
    ∧ (255 = regVal busSocFF SOC >>> 8 ∧ (255 : Nat) ≤ 255) :=
  ⟨rfl, max17048_get_soc_upper_byte busSocFF 255 rfl⟩

/-- C3 (counterexample): with raw SOC register value 0xFF00 the getter
succeeds and returns 255, which is not within 0..100 — the claimed
0..100 range does not hold. -/
theorem max17048_get_soc_exceeds_100 :
    (max17048_get_soc false busSocFF).1 = true
    ∧ (max17048_get_soc false busSocFF).2.1 = some 255
    ∧ ¬(255 ≤ 100) :=
  ⟨rfl, rfl, by decide⟩

lemma clear_alerts_step1_true (bus : Bus)
    (h : (modify_reg STATUS 0 ALRT_STATUS_MSK bus).1 = true) :
    max17048_clear_alerts bus =
      modify_reg CONFIG 0 ALRT_BIT_MSK (modify_reg STATUS 0 ALRT_STATUS_MSK bus).2 := by
  unfold max17048_clear_alerts
  rcases h1 : modify_reg STATUS 0 ALRT_STATUS_MSK bus with ⟨b1, bus1⟩
  rw [h1] at h
  simp only at h
  subst h
  rfl

lemma clear_alerts_step1_false (bus : Bus)
    (h : (modify_reg STATUS 0 ALRT_STATUS_MSK bus).1 = false) :
    max17048_clear_alerts bus =
      (false, (modify_reg STATUS 0 ALRT_STATUS_MSK bus).2) := by
  unfold max17048_clear_alerts
  rcases h1 : modify_reg STATUS 0 ALRT_STATUS_MSK bus with ⟨b1, bus1⟩
  rw [h1] at h
  simp only at h
  subst h
  rfl

/-- C7: clear-all-alerts first performs the masked STATUS update
(clearing bits 8-13), then the masked CONFIG update (clearing bit 5);
it succeeds exactly when both sub-steps succeed, on a first-step
failure it stops without touching CONFIG, and on success both cleared
fields read back as zero. -/
theorem max17048_clear_alerts_spec (bus : Bus) :
    (max17048_clear_alerts bus).1 =
      ((modify_reg STATUS 0 ALRT_STATUS_MSK bus).1 &&
        (modify_reg CONFIG 0 ALRT_BIT_MSK
          (modify_reg STATUS 0 ALRT_STATUS_MSK bus).2).1)
    ∧ ((modify_reg STATUS 0 ALRT_STATUS_MSK bus).1 = false →
        (max17048_clear_alerts bus).2 = (modify_reg STATUS 0 ALRT_STATUS_MSK bus).2
        ∧ (max17048_clear_alerts bus).2.regs CONFIG = bus.regs CONFIG)
    ∧ (bus.ok bus.calls = true → bus.ok (bus.calls + 1) = true →
       bus.ok (bus.calls + 1 + 1) = true → bus.ok (bus.calls + 1 + 1 + 1) = true →
        (max17048_clear_alerts bus).1 = true
        ∧ regVal (max17048_clear_alerts bus).2 STATUS &&& ALRT_STATUS_MSK = 0
        ∧ regVal (max17048_clear_alerts bus).2 CONFIG &&& ALRT_BIT_MSK = 0) := by
  refine ⟨?_, ?_, ?_⟩
  · rcases hb : (modify_reg STATUS 0 ALRT_STATUS_MSK bus).1 with _ | _
    · rw [clear_alerts_step1_false bus hb]
      simp
    · rw [clear_alerts_step1_true bus hb]
      simp
  · intro h
    rw [clear_alerts_step1_false bus h]
    exact ⟨rfl, modify_reg_regs_other STATUS 0 ALRT_STATUS_MSK bus CONFIG (by decide)⟩
  · intro h0 h1 h2 h3
    have hs1 : (modify_reg STATUS 0 ALRT_STATUS_MSK bus).1 = true := by
      rw [modify_reg_ok STATUS 0 ALRT_STATUS_MSK bus h0 h1]
    have hok2 : ((modify_reg STATUS 0 ALRT_STATUS_MSK bus).2).ok
        ((modify_reg STATUS 0 ALRT_STATUS_MSK bus).2).calls = true := by
      rw [modify_reg_ok STATUS 0 ALRT_STATUS_MSK bus h0 h1]
      exact h2
    have hok3 : ((modify_reg STATUS 0 ALRT_STATUS_MSK bus).2).ok
        (((modify_reg STATUS 0 ALRT_STATUS_MSK bus).2).calls + 1) = true := by
      rw [modify_reg_ok STATUS 0 ALRT_STATUS_MSK bus h0 h1]
      exact h3
    rw [clear_alerts_step1_true bus hs1]
    refine ⟨?_, ?_, ?_⟩
    · rw [modify_reg_ok _ _ _ _ hok2 hok3]
    · rw [regVal_modify_other CONFIG 0 ALRT_BIT_MSK _ STATUS (by decide),
        regVal_modify_ok STATUS 0 ALRT_STATUS_MSK bus h0 h1,
        masked_update_zero,
        Nat.mod_eq_of_lt (lt_of_le_of_lt Nat.and_le_left (regVal_lt bus STATUS))]
      exact and_not16_and_self _ _ (by decide)
    · rw [regVal_modify_ok CONFIG 0 ALRT_BIT_MSK _ hok2 hok3,
        masked_update_zero,
        Nat.mod_eq_of_lt (lt_of_le_of_lt Nat.and_le_left (regVal_lt _ _))]
      exact and_not16_and_self _ _ (by decide)

theorem max17048_clear_alerts_spec_witness :
    busAllOk.ok busAllOk.calls = true
    ∧ ((max17048_clear_alerts busAllOk).1 = true
       ∧ regVal (max17048_clear_alerts busAllOk).2 STATUS &&& ALRT_STATUS_MSK = 0
       ∧ regVal (max17048_clear_alerts busAllOk).2 CONFIG &&& ALRT_BIT_MSK = 0) :=
  ⟨rfl, (max17048_clear_alerts_spec busAllOk).2.2 rfl rfl rfl rfl⟩

lemma not16_valrt_min : NOT16 VALRT_MIN_MSK = 255 := by decide

lemma valrt_min_msk_lt : VALRT_MIN_MSK < 65536 := by decide

/-- C9: the under-voltage setter performs a masked VALRT update that
puts `(mv / 20) & 0xFF` into bits 8-15 while every bit 0-7 of VALRT
(the maximum-voltage field) is unchanged. -/
theorem max17048_set_undervolted_voltage_spec (mv : Nat) (bus : Bus) (i : Nat)
    (hmv : mv < 65536) (hi : i < 8)
    (h0 : bus.ok bus.calls = true) (h1 : bus.ok (bus.calls + 1) = true) :
    (max17048_set_undervolted_voltage mv bus).1 = true
    ∧ (regVal (max17048_set_undervolted_voltage mv bus).2 VALRT).testBit (8 + i)
        = ((mv / VALRT_RESOLUTION) &&& 0xFF).testBit i
    ∧ (regVal (max17048_set_undervolted_voltage mv bus).2 VALRT).testBit i
        = (regVal bus VALRT).testBit i := by
  unfold max17048_set_undervolted_voltage
  have hdrop : (((mv / VALRT_RESOLUTION) <<< VALRT_MIN_POS) &&& VALRT_MIN_MSK) % 65536
      = ((mv / VALRT_RESOLUTION) <<< VALRT_MIN_POS) &&& VALRT_MIN_MSK :=
    Nat.mod_eq_of_lt (lt_of_le_of_lt Nat.and_le_right valrt_min_msk_lt)
  have notlt : ¬(8 + i < 8) := by omega
  have hle8 : 8 ≤ 8 + i := by omega
  have h16 : 8 + i < 16 := by omega
  have hsub : 8 + i - 8 = i := by omega
  have hne8 : ¬(8 ≤ i) := by omega
  refine ⟨?_, ?_, ?_⟩
  · rw [modify_reg_ok _ _ _ _ h0 h1]
  · rw [regVal_modify_ok _ _ _ _ h0 h1,
      Nat.mod_eq_of_lt (masked_update_lt _ _ _ (regVal_lt _ _) valrt_min_msk_lt),
      hdrop]
    simp only [masked_update, Nat.testBit_or, Nat.testBit_and, not16_valrt_min,
      show VALRT_MIN_MSK = 0xFF00 by decide, show VALRT_MIN_POS = 8 by decide,
      show NOT16 0xFF00 = 255 by decide,
      testBit_255, testBit_ff00, Nat.testBit_shiftLeft, ge_iff_le]
    simp [notlt, hle8, h16, hsub, hi]
  · rw [regVal_modify_ok _ _ _ _ h0 h1,
      Nat.mod_eq_of_lt (masked_update_lt _ _ _ (regVal_lt _ _) valrt_min_msk_lt),
      hdrop]
    simp only [masked_update, Nat.testBit_or, Nat.testBit_and, not16_valrt_min,
      show VALRT_MIN_MSK = 0xFF00 by decide, show VALRT_MIN_POS = 8 by decide,
      show NOT16 0xFF00 = 255 by decide,
      testBit_255, testBit_ff00, Nat.testBit_shiftLeft, ge_iff_le]
    simp [hi, hne8]

theorem max17048_set_undervolted_voltage_spec_witness :
    (3000 : Nat) < 65536 ∧ (0 : Nat) < 8
    ∧ busAllOk.ok busAllOk.calls = true
    ∧ busAllOk.ok (busAllOk.calls + 1) = true
    ∧ ((max17048_set_undervolted_voltage 3000 busAllOk).1 = true
       ∧ (regVal (max17048_set_undervolted_voltage 3000 busAllOk).2 VALRT).testBit (8 + 0)
           = ((3000 / VALRT_RESOLUTION) &&& 0xFF).testBit 0
       ∧ (regVal (max17048_set_undervolted_voltage 3000 busAllOk).2 VALRT).testBit 0
           = (regVal busAllOk VALRT).testBit 0) :=
  ⟨by decide, by decide, rfl, rfl,
   max17048_set_undervolted_voltage_spec 3000 busAllOk 0 (by decide) (by decide) rfl rfl⟩

/-- C1 (code bug): `max17048_get_alerts` computes its `ok` flag but
returns `true` unconditionally.  On a bus whose STATUS read fails it
still reports success and stores a mask derived from the indeterminate
local `data`; on a bus where the read succeeds but the subsequent
clear-all-alerts transaction fails it also reports success. -/
theorem max17048_get_alerts_ignores_transport_failure :
    ((max17048_get_alerts false 0x5A5A busAllFail).1 = true
     ∧ (max17048_get_alerts false 0x5A5A busAllFail).2.1 = some 0x1A)
    ∧ (max17048_get_alerts false 0 busFirstOnly).1 = true :=
  ⟨⟨rfl, rfl⟩, rfl⟩

/-- C2 (code bug): with STATUS logical value 0x0800 (the voltage-reset
status bit, bit 11) and every transport call succeeding, the
get-and-clear-alerts operation succeeds and returns mask 0x08, which is
none of the six named alert flags — in particular not
`MAX_ALERT_VOLTAGE_RESET = 0x80`, which the returned 6-bit mask can
never contain. -/
theorem max17048_get_alerts_mask_outside_named_flags :
    (max17048_get_alerts false 0 busVR).1 = true
    ∧ (max17048_get_alerts false 0 busVR).2.1 = some 0x08
    ∧ (0x08 : Nat) &&& namedAlertFlags ≠ 0x08 :=
  ⟨rfl, rfl, by decide⟩

/-- C10: every getter taking an output pointer rejects a null pointer:
it returns failure with the bus unchanged (so no transport call was
issued) and nothing written through the pointer. -/
theorem getters_reject_null_output (bus : Bus) (junk : Nat) :
    max17048_get_vcell true bus = (false, none, bus)
    ∧ max17048_get_soc true bus = (false, none, bus)
    ∧ max17048_get_alerts true junk bus = (false, none, bus) :=
  ⟨rfl, rfl, rfl⟩
